import Mathlib

/-!
Shallow embedding of `src/api.py` (DOexpertSystem): an experta-based
water-quality expert system served over Flask.

Modelling conventions:
* Parameter values are rationals (the Python code compares JSON numbers
  with `<` / `>`; all thresholds are decimal literals).
* An `Obs` holds the optional sensor parameters of the single
  `Fact(**data)` declared by `predict`; an experta pattern
  `Fact(param=MATCH.x & P(pred))` matches iff the parameter is present
  and the predicate holds, modelled by `Option.bind`.
* Each `@Rule` method of `OxygenPredictor` becomes a function
  `Obs → Period → Option Issue`: `none` when the pattern does not match,
  `some issue` for the single `add_issue` call the method executes.
  The `fish_type` gate (`Fact(fish_type="...")`) is the scope under
  which the rule is listed in `run_engine`.
* `get_time_of_day` (timezone clock) is external; its result is the
  `Period` input.
* The eight turbidity rule functions appear after the class body at
  module level in `src/api.py` (lines 776-882); they are therefore not
  methods of `OxygenPredictor` and are not registered with the engine.
  They are embedded here as standalone functions and deliberately do not
  occur in any of the per-fish rule lists used by `run_engine`.
* No `@Rule` method ever calls `add_positive_feedback`, so the
  `positive_feedback` accumulator of a run is the initial empty list.
-/

inductive Period where
  | morning
  | afternoon
  | evening
  | night
deriving DecidableEq

def periodName : Period → String
  | Period.morning => "morning"
  | Period.afternoon => "afternoon"
  | Period.evening => "evening"
  | Period.night => "night"

structure Issue where
  warning : String
  recommendation : String
  severity : Nat
  category : String
  prediction : String
deriving DecidableEq

structure Positive where
  message : String
  suggestion : String
  category : String
deriving DecidableEq

structure Obs where
  dissolved_oxygen : Option ℚ
  temperature : Option ℚ
  ph_level : Option ℚ
  salinity : Option ℚ
  ammonia : Option ℚ
  turbidity : Option ℚ
deriving DecidableEq

structure EngineState where
  relevant_issues : List Issue
  positive_feedback : List Positive
deriving DecidableEq

structure Response where
  warnings : List String
  recommendations : List String
  predictions : List String
  positive_feedback : List String
  positive_suggestions : List String
deriving DecidableEq

/-- `OxygenPredictor.add_issue`: append the issue unless an already
collected issue has the identical warning text. -/
def add_issue (st : List Issue) (i : Issue) : List Issue :=
  if st.any (fun j => j.warning == i.warning) then st else st ++ [i]

/-- `OxygenPredictor.add_positive_feedback` (defined in the source but
never invoked by any `@Rule` method). -/
def add_positive_feedback (st : List Positive) (f : Positive) : List Positive :=
  st ++ [f]

/-- Fire one rule against the collected issues: a matched rule performs
its single `add_issue` call, a non-matched rule leaves the state alone. -/
def apply_opt (st : List Issue) (r : Option Issue) : List Issue :=
  match r with
  | some i => add_issue st i
  | none => st

/-- Rule `critically_low_oxygen_others`. -/
def critically_low_oxygen_others (o : Obs) (p : Period) : Option Issue :=
  o.dissolved_oxygen.bind (fun v =>
    if v < 4 then
      some (if p = Period.night then
        { warning := "⚠️ Nighttime oxygen depletion!"
          recommendation := "Increase water circulation at night to prevent oxygen crashes. Avoid overfeeding fish, as uneaten food can consume oxygen."
          severity := 4
          category := "oxygen"
          prediction := "Fish may suffocate and die if oxygen levels remain critically low." }
      else
        { warning := "⚠️ Critically low oxygen levels! Fish may be lethargic or surfacing."
          recommendation := "Increase water circulation. Reduce organic waste by cleaning debris and avoiding overfeeding."
          severity := 4
          category := "oxygen"
          prediction := "Fish may become lethargic, stop eating, and eventually die if oxygen levels are not increased." })
    else none)

/-- Rule `high_temperature_others`. -/
def high_temperature_others (o : Obs) (p : Period) : Option Issue :=
  o.temperature.bind (fun v =>
    if v > 30 then
      some (match p with
      | Period.morning =>
        { warning := "🔥 High morning temperatures detected! Oxygen levels may drop."
          recommendation := "Provide shade using floating plants or shade cloths. Increase water depth to reduce heat absorption."
          severity := 3
          category := "temperature"
          prediction := "High temperatures can reduce oxygen levels, stressing fish and making them more susceptible to diseases." }
      | Period.afternoon =>
        { warning := "🔥 High afternoon temperatures detected! Oxygen levels may drop."
          recommendation := "Provide shade using floating plants or shade cloths. Increase water depth to reduce heat absorption. Avoid direct sunlight exposure."
          severity := 3
          category := "temperature"
          prediction := "Prolonged high temperatures can lead to fish stress, reduced appetite, and increased mortality." }
      | Period.evening =>
        { warning := "🔥 High evening temperatures detected! Oxygen levels may drop."
          recommendation := "Increase aeration and water circulation to cool the water."
          severity := 3
          category := "temperature"
          prediction := "Fish may become stressed and lethargic if water temperatures remain high." }
      | Period.night =>
        { warning := "🔥 High nighttime temperatures detected! Oxygen levels may drop."
          recommendation := "Increase aeration and water circulation to cool the water. Monitor fish behavior for signs of stress."
          severity := 3
          category := "temperature"
          prediction := "Fish may experience stress and reduced oxygen levels, leading to potential fatalities." })
    else none)

/-- Rule `critically_low_oxygen_catfish`. -/
def critically_low_oxygen_catfish (o : Obs) (p : Period) : Option Issue :=
  o.dissolved_oxygen.bind (fun v =>
    if v < 4 then
      some (if p = Period.night then
        { warning := "⚠️ Nighttime oxygen depletion!"
          recommendation := "Increase water circulation at night to prevent oxygen crashes. Avoid overfeeding fish, as uneaten food can consume oxygen."
          severity := 4
          category := "oxygen"
          prediction := "Catfish may suffocate and die if oxygen levels remain critically low." }
      else
        { warning := "⚠️ Critically low oxygen levels! Catfish may be lethargic or surfacing."
          recommendation := "Increase water circulation. Reduce organic waste by cleaning debris and avoiding overfeeding."
          severity := 4
          category := "oxygen"
          prediction := "Catfish may become lethargic, stop eating, and eventually die if oxygen levels are not increased." })
    else none)

/-- Rule `critically_low_oxygen_tilapia`. -/
def critically_low_oxygen_tilapia (o : Obs) (p : Period) : Option Issue :=
  o.dissolved_oxygen.bind (fun v =>
    if v < 5 then
      some (if p = Period.night then
        { warning := "⚠️ Nighttime oxygen depletion!"
          recommendation := "Increase water circulation at night to prevent oxygen crashes. Avoid overfeeding fish, as uneaten food can consume oxygen."
          severity := 4
          category := "oxygen"
          prediction := "Tilapia may suffocate and die if oxygen levels remain critically low." }
      else
        { warning := "⚠️ Critically low oxygen levels! Tilapia may be lethargic or surfacing."
          recommendation := "Increase water circulation. Reduce organic waste by cleaning debris and avoiding overfeeding."
          severity := 4
          category := "oxygen"
          prediction := "Tilapia may become lethargic, stop eating, and eventually die if oxygen levels are not increased." })
    else none)

/-- Rule `critically_low_oxygen_crayfish`. -/
def critically_low_oxygen_crayfish (o : Obs) (p : Period) : Option Issue :=
  o.dissolved_oxygen.bind (fun v =>
    if v < 5 then
      some (if p = Period.night then
        { warning := "⚠️ Nighttime oxygen depletion!"
          recommendation := "Increase water circulation at night to prevent oxygen crashes. Avoid overfeeding fish, as uneaten food can consume oxygen."
          severity := 4
          category := "oxygen"
          prediction := "Crayfish may suffocate and die if oxygen levels remain critically low." }
      else
        { warning := "⚠️ Critically low oxygen levels! Crayfish may be lethargic or surfacing."
          recommendation := "Increase water circulation. Reduce organic waste by cleaning debris and avoiding overfeeding."
          severity := 4
          category := "oxygen"
          prediction := "Crayfish may become lethargic, stop eating, and eventually die if oxygen levels are not increased." })
    else none)

/-- Rule `high_temperature_catfish`. -/
def high_temperature_catfish (o : Obs) (p : Period) : Option Issue :=
  o.temperature.bind (fun v =>
    if v > 32 then
      some (match p with
      | Period.morning =>
        { warning := "🔥 High morning temperatures detected! Oxygen levels may drop."
          recommendation := "Provide shade using floating plants or shade cloths. Increase water depth to reduce heat absorption."
          severity := 3
          category := "temperature"
          prediction := "High temperatures can reduce oxygen levels, stressing catfish and making them more susceptible to diseases." }
      | Period.afternoon =>
        { warning := "🔥 High afternoon temperatures detected! Oxygen levels may drop."
          recommendation := "Provide shade using floating plants or shade cloths. Increase water depth to reduce heat absorption. Avoid direct sunlight exposure."
          severity := 3
          category := "temperature"
          prediction := "Prolonged high temperatures can lead to catfish stress, reduced appetite, and increased mortality." }
      | Period.evening =>
        { warning := "🔥 High evening temperatures detected! Oxygen levels may drop."
          recommendation := "Increase aeration and water circulation to cool the water."
          severity := 3
          category := "temperature"
          prediction := "Catfish may become stressed and lethargic if water temperatures remain high." }
      | Period.night =>
        { warning := "🔥 High nighttime temperatures detected! Oxygen levels may drop."
          recommendation := "Increase aeration and water circulation to cool the water. Monitor catfish behavior for signs of stress."
          severity := 3
          category := "temperature"
          prediction := "Catfish may experience stress and reduced oxygen levels, leading to potential fatalities." })
    else none)

/-- Rule `high_temperature_tilapia`. -/
def high_temperature_tilapia (o : Obs) (p : Period) : Option Issue :=
  o.temperature.bind (fun v =>
    if v > 30 then
      some (match p with
      | Period.morning =>
        { warning := "🔥 High morning temperatures detected! Oxygen levels may drop."
          recommendation := "Provide shade using floating plants or shade cloths. Increase water depth to reduce heat absorption."
          severity := 3
          category := "temperature"
          prediction := "High temperatures can reduce oxygen levels, stressing tilapia and making them more susceptible to diseases." }
      | Period.afternoon =>
        { warning := "🔥 High afternoon temperatures detected! Oxygen levels may drop."
          recommendation := "Provide shade using floating plants or shade cloths. Increase water depth to reduce heat absorption. Avoid direct sunlight exposure."
          severity := 3
          category := "temperature"
          prediction := "Prolonged high temperatures can lead to tilapia stress, reduced appetite, and increased mortality." }
      | Period.evening =>
        { warning := "🔥 High evening temperatures detected! Oxygen levels may drop."
          recommendation := "Increase aeration and water circulation to cool the water."
          severity := 3
          category := "temperature"
          prediction := "Tilapia may become stressed and lethargic if water temperatures remain high." }
      | Period.night =>
        { warning := "🔥 High nighttime temperatures detected! Oxygen levels may drop."
          recommendation := "Increase aeration and water circulation to cool the water. Monitor tilapia behavior for signs of stress."
          severity := 3
          category := "temperature"
          prediction := "Tilapia may experience stress and reduced oxygen levels, leading to potential fatalities." })
    else none)

/-- Rule `high_temperature_crayfish`. -/
def high_temperature_crayfish (o : Obs) (p : Period) : Option Issue :=
  o.temperature.bind (fun v =>
    if v > 24 then
      some (match p with
      | Period.morning =>
        { warning := "🔥 High morning temperatures detected! Oxygen levels may drop."
          recommendation := "Provide shade using floating plants or shade cloths. Increase water depth to reduce heat absorption."
          severity := 3
          category := "temperature"
          prediction := "High temperatures can reduce oxygen levels, stressing crayfish and making them more susceptible to diseases." }
      | Period.afternoon =>
        { warning := "🔥 High afternoon temperatures detected! Oxygen levels may drop."
          recommendation := "Provide shade using floating plants or shade cloths. Increase water depth to reduce heat absorption. Avoid direct sunlight exposure."
          severity := 3
          category := "temperature"
          prediction := "Prolonged high temperatures can lead to crayfish stress, reduced appetite, and increased mortality." }
      | Period.evening =>
        { warning := "🔥 High evening temperatures detected! Oxygen levels may drop."
          recommendation := "Increase aeration and water circulation to cool the water."
          severity := 3
          category := "temperature"
          prediction := "Crayfish may become stressed and lethargic if water temperatures remain high." }
      | Period.night =>
        { warning := "🔥 High nighttime temperatures detected! Oxygen levels may drop."
          recommendation := "Increase aeration and water circulation to cool the water. Monitor crayfish behavior for signs of stress."
          severity := 3
          category := "temperature"
          prediction := "Crayfish may experience stress and reduced oxygen levels, leading to potential fatalities." })
    else none)

/-- Rule `low_ph_others` (severity 5 below pH 4.0, severity 3 otherwise). -/
def low_ph_others (o : Obs) (_p : Period) : Option Issue :=
  o.ph_level.bind (fun v =>
    if v < 6 then
      some (if v < 4 then
        { warning := "⚠️ Extremely low pH detected! Water is highly acidic and dangerous for fish."
          recommendation := "Immediately add baking soda (1 teaspoon per 5 gallons) to raise pH or perform a partial water change to reduce acidity."
          severity := 5
          category := "ph"
          prediction := "Fish may experience severe stress, tissue damage, and death if pH remains extremely low." }
      else
        { warning := "⚠️ Low pH detected! Water is too acidic."
          recommendation := "Add baking soda (1/2 teaspoon per 5 gallons) to raise pH gradually or perform a partial water change to dilute acidity."
          severity := 3
          category := "ph"
          prediction := "Fish may become stressed, stop eating, and develop health issues if pH is not corrected." })
    else none)

/-- Rule `low_ph_catfish` (threshold 6.5 = mkRat 13 2). -/
def low_ph_catfish (o : Obs) (_p : Period) : Option Issue :=
  o.ph_level.bind (fun v =>
    if v < mkRat 13 2 then
      some
        { warning := "⚠️ Low pH detected! Catfish prefer a pH between 6.5 and 8.0."
          recommendation := "Add baking soda (1/2 teaspoon per 5 gallons) to raise pH gradually. Place limestone or crushed eggshells in the pond to stabilize pH."
          severity := 3
          category := "ph"
          prediction := "Catfish may become stressed and stop eating if pH is not corrected." }
    else none)

/-- Rule `low_ph_tilapia` (threshold 6.5 = mkRat 13 2). -/
def low_ph_tilapia (o : Obs) (_p : Period) : Option Issue :=
  o.ph_level.bind (fun v =>
    if v < mkRat 13 2 then
      some
        { warning := "⚠️ Low pH detected for Tilapia!"
          recommendation := "Add baking soda (1/2 teaspoon per 5 gallons) to raise pH gradually. Place limestone or crushed eggshells in the pond to stabilize pH."
          severity := 3
          category := "ph"
          prediction := "Tilapia may become stressed and stop eating if pH is not corrected." }
    else none)

/-- Rule `low_ph_crayfish` (threshold 6.5 = mkRat 13 2). -/
def low_ph_crayfish (o : Obs) (_p : Period) : Option Issue :=
  o.ph_level.bind (fun v =>
    if v < mkRat 13 2 then
      some
        { warning := "⚠️ Low pH detected for Crayfish!"
          recommendation := "Add baking soda (1/2 teaspoon per 5 gallons) to raise pH gradually. Place limestone or crushed eggshells in the pond to stabilize pH."
          severity := 3
          category := "ph"
          prediction := "Crayfish may become stressed and stop eating if pH is not corrected." }
    else none)

/-- Rule `low_temperature_others`. -/
def low_temperature_others (o : Obs) (p : Period) : Option Issue :=
  o.temperature.bind (fun v =>
    if v < 20 then
      some (match p with
      | Period.morning =>
        { warning := "❄️ Low morning temperatures detected! Fish may become sluggish."
          recommendation := "Increase water temperature using a heater or by covering the pond to retain heat. Avoid sudden temperature changes."
          severity := 3
          category := "temperature"
          prediction := "Fish may become sluggish, stop eating, and become more susceptible to diseases if temperatures remain low." }
      | Period.night =>
        { warning := "❄️ Low nighttime temperatures detected! Fish may become sluggish."
          recommendation := "Increase water temperature using a heater or by covering the pond to retain heat. Monitor fish behavior for signs of stress."
          severity := 3
          category := "temperature"
          prediction := "Fish may become sluggish, stop eating, and become more susceptible to diseases if temperatures remain low." }
      | _ =>
        { warning := "❄️ Low temperatures detected! Fish may become sluggish."
          recommendation := "Increase water temperature using a heater or by covering the pond to retain heat. Avoid sudden temperature changes."
          severity := 3
          category := "temperature"
          prediction := "Fish may become sluggish, stop eating, and become more susceptible to diseases if temperatures remain low." })
    else none)

/-- Rule `low_temperature_catfish`. -/
def low_temperature_catfish (o : Obs) (p : Period) : Option Issue :=
  o.temperature.bind (fun v =>
    if v < 25 then
      some (match p with
      | Period.morning =>
        { warning := "❄️ Low morning temperatures detected for Catfish!"
          recommendation := "Increase water temperature using a heater or by covering the pond to retain heat. Avoid sudden temperature changes."
          severity := 3
          category := "temperature"
          prediction := "Catfish may become sluggish, stop eating, and become more susceptible to diseases if temperatures remain low." }
      | Period.night =>
        { warning := "❄️ Low nighttime temperatures detected for Catfish!"
          recommendation := "Increase water temperature using a heater or by covering the pond to retain heat. Monitor catfish behavior for signs of stress."
          severity := 3
          category := "temperature"
          prediction := "Catfish may become sluggish, stop eating, and become more susceptible to diseases if temperatures remain low." }
      | _ =>
        { warning := "❄️ Low temperatures detected for Catfish!"
          recommendation := "Increase water temperature using a heater or by covering the pond to retain heat. Avoid sudden temperature changes."
          severity := 3
          category := "temperature"
          prediction := "Catfish may become sluggish, stop eating, and become more susceptible to diseases if temperatures remain low." })
    else none)

/-- Rule `low_temperature_tilapia`. -/
def low_temperature_tilapia (o : Obs) (p : Period) : Option Issue :=
  o.temperature.bind (fun v =>
    if v < 26 then
      some (match p with
      | Period.morning =>
        { warning := "❄️ Low morning temperatures detected! Not ideal for Tilapia."
          recommendation := "Increase water temperature using a heater or by covering the pond to retain heat. Avoid sudden temperature changes."
          severity := 3
          category := "temperature"
          prediction := "Tilapia may become sluggish, stop eating, and become more susceptible to diseases if temperatures remain low." }
      | Period.night =>
        { warning := "❄️ Low nighttime temperatures detected! Too cold for Tilapia."
          recommendation := "Increase water temperature using a heater or by covering the pond to retain heat. Monitor tilapia behavior for signs of stress."
          severity := 3
          category := "temperature"
          prediction := "Tilapia may become sluggish, stop eating, and become more susceptible to diseases if temperatures remain low." }
      | _ =>
        { warning := "❄️ Low temperatures detected! Too cold for Tilapia."
          recommendation := "Increase water temperature using a heater or by covering the pond to retain heat. Avoid sudden temperature changes."
          severity := 3
          category := "temperature"
          prediction := "Tilapia may become sluggish, stop eating, and become more susceptible to diseases if temperatures remain low." })
    else none)

/-- Rule `low_temperature_crayfish`. -/
def low_temperature_crayfish (o : Obs) (p : Period) : Option Issue :=
  o.temperature.bind (fun v =>
    if v < 18 then
      some (match p with
      | Period.morning =>
        { warning := "❄️ Low morning temperatures detected for Crayfish!"
          recommendation := "Increase water temperature using a heater or by covering the pond to retain heat. Avoid sudden temperature changes."
          severity := 3
          category := "temperature"
          prediction := "Crayfish may become sluggish, stop eating, and become more susceptible to diseases if temperatures remain low." }
      | Period.night =>
        { warning := "❄️ Low nighttime temperatures detected for Crayfish!"
          recommendation := "Increase water temperature using a heater or by covering the pond to retain heat. Monitor crayfish behavior for signs of stress."
          severity := 3
          category := "temperature"
          prediction := "Crayfish may become sluggish, stop eating, and become more susceptible to diseases if temperatures remain low." }
      | _ =>
        { warning := "❄️ Low temperatures detected for Crayfish!"
          recommendation := "Increase water temperature using a heater or by covering the pond to retain heat. Avoid sudden temperature changes."
          severity := 3
          category := "temperature"
          prediction := "Crayfish may become sluggish, stop eating, and become more susceptible to diseases if temperatures remain low." })
    else none)

/-- Rule `high_ph_others`. -/
def high_ph_others (o : Obs) (_p : Period) : Option Issue :=
  o.ph_level.bind (fun v =>
    if v > 8 then
      some
        { warning := "⚠️ High pH detected! Water is too alkaline."
          recommendation := "Perform a partial water change (20-30%) with fresh water. Add 1 teaspoon of white vinegar per 5 gallons to lower pH slightly and perform a partial water change to reduce alkalinity."
          severity := 3
          category := "ph"
          prediction := "Fish may experience stress, reduced growth, and increased susceptibility to diseases if pH remains high." }
    else none)

/-- Rule `high_ph_catfish`. -/
def high_ph_catfish (o : Obs) (_p : Period) : Option Issue :=
  o.ph_level.bind (fun v =>
    if v > 8 then
      some
        { warning := "⚠️ High pH detected for Catfish!"
          recommendation := "Perform a partial water change (20-30%) with fresh water. Add a handful of dry leaves (e.g., banana leaves) to the pond to naturally lower pH."
          severity := 3
          category := "ph"
          prediction := "Catfish may experience stress and reduced growth if pH remains high." }
    else none)

/-- Rule `high_ph_tilapia` (threshold 8.5 = mkRat 17 2). -/
def high_ph_tilapia (o : Obs) (_p : Period) : Option Issue :=
  o.ph_level.bind (fun v =>
    if v > mkRat 17 2 then
      some
        { warning := "⚠️ High pH detected for Tilapia!"
          recommendation := "Perform a partial water change (20-30%) with fresh water. Add 1 teaspoon of white vinegar per 5 gallons to lower pH slightly."
          severity := 3
          category := "ph"
          prediction := "Tilapia may experience stress and reduced growth if pH remains high." }
    else none)

/-- Rule `high_ph_crayfish` (threshold 7.5 = mkRat 15 2). -/
def high_ph_crayfish (o : Obs) (_p : Period) : Option Issue :=
  o.ph_level.bind (fun v =>
    if v > mkRat 15 2 then
      some
        { warning := "⚠️ High pH detected for Crayfish!"
          recommendation := "Perform a partial water change (20-30%) with fresh water. Add a handful of dry leaves (e.g., banana leaves) to the pond to naturally lower pH."
          severity := 3
          category := "ph"
          prediction := "Crayfish may experience stress and reduced growth if pH remains high." }
    else none)

/-- Rule `high_salinity_others`: `get_time_of_day` always returns a
non-empty string, so the truthy branch of `if time_period:` is taken and
the warning always names the period. -/
def high_salinity_others (o : Obs) (p : Period) : Option Issue :=
  o.salinity.bind (fun v =>
    if v > 5 then
      some
        { warning := "⚠️ High salinity detected in the " ++ periodName p ++ "! Potential stress on freshwater fish."
          recommendation := "Dilute the water by adding fresh water gradually. Identify and remove sources of salt contamination."
          severity := 3
          category := "salinity"
          prediction := "Freshwater fish may experience osmotic stress, leading to dehydration and death if salinity remains high." }
    else none)

/-- Rule `high_salinity_catfish`. -/
def high_salinity_catfish (o : Obs) (p : Period) : Option Issue :=
  o.salinity.bind (fun v =>
    if v > 5 then
      some
        { warning := "⚠️ High salinity detected in the " ++ periodName p ++ " for Catfish!"
          recommendation := "Dilute the water by adding fresh water gradually."
          severity := 3
          category := "salinity"
          prediction := "Catfish may experience osmotic stress if salinity remains high." }
    else none)

/-- Rule `high_salinity_tilapia`. -/
def high_salinity_tilapia (o : Obs) (p : Period) : Option Issue :=
  o.salinity.bind (fun v =>
    if v > 5 then
      some
        { warning := "⚠️ High salinity detected in the " ++ periodName p ++ " for Tilapia!"
          recommendation := "Dilute the water by adding fresh water gradually."
          severity := 3
          category := "salinity"
          prediction := "Tilapia may experience osmotic stress if salinity remains high." }
    else none)

/-- Rule `high_salinity_crayfish`. -/
def high_salinity_crayfish (o : Obs) (p : Period) : Option Issue :=
  o.salinity.bind (fun v =>
    if v > 1 then
      some
        { warning := "⚠️ High salinity detected in the " ++ periodName p ++ " for Crayfish!"
          recommendation := "Dilute the water by adding fresh water gradually."
          severity := 3
          category := "salinity"
          prediction := "Crayfish may experience osmotic stress if salinity remains high." }
    else none)

/-- Rule `high_ammonia_others` (gate strictly above 2.0; severity 5
above 3.5 = mkRat 7 2, severity 4 otherwise). -/
def high_ammonia_others (o : Obs) (_p : Period) : Option Issue :=
  o.ammonia.bind (fun v =>
    if v > 2 then
      some (if v > mkRat 7 2 then
        { warning := "⚠️ Extremely high ammonia levels detected! Toxic to fish."
          recommendation := "Immediately perform a partial water change to reduce ammonia levels. Increase aeration and reduce feeding to minimize ammonia production."
          severity := 5
          category := "ammonia"
          prediction := "Fish may suffer from ammonia poisoning, leading to gill damage, lethargy, and death." }
      else
        { warning := "⚠️ High ammonia levels detected! Potential stress on fish."
          recommendation := "Perform a partial water change and increase aeration. Reduce feeding and remove any decaying organic matter."
          severity := 4
          category := "ammonia"
          prediction := "Fish may experience stress, reduced appetite, and increased susceptibility to diseases if ammonia levels remain high." })
    else none)

/-- Rule `high_ammonia_catfish` (gate above 3; severity 5 above 4.5 = mkRat 9 2). -/
def high_ammonia_catfish (o : Obs) (_p : Period) : Option Issue :=
  o.ammonia.bind (fun v =>
    if v > 3 then
      some (if v > mkRat 9 2 then
        { warning := "⚠️ Extremely high ammonia levels detected! Toxic to catfish."
          recommendation := "Immediately perform a partial water change to reduce ammonia levels. Increase aeration and reduce feeding to minimize ammonia production."
          severity := 5
          category := "ammonia"
          prediction := "Catfish may suffer from ammonia poisoning, leading to gill damage, lethargy, and death." }
      else
        { warning := "⚠️ High ammonia levels detected! Potential stress on catfish."
          recommendation := "Perform a partial water change and increase aeration. Reduce feeding and remove any decaying organic matter."
          severity := 4
          category := "ammonia"
          prediction := "Catfish may experience stress, reduced appetite, and increased susceptibility to diseases if ammonia levels remain high." })
    else none)

/-- Rule `high_ammonia_tilapia` (gate above 2; severity 5 above 3.5 = mkRat 7 2). -/
def high_ammonia_tilapia (o : Obs) (_p : Period) : Option Issue :=
  o.ammonia.bind (fun v =>
    if v > 2 then
      some (if v > mkRat 7 2 then
        { warning := "⚠️ Extremely high ammonia levels detected! Toxic to tilapia."
          recommendation := "Immediately perform a partial water change to reduce ammonia levels. Increase aeration and reduce feeding to minimize ammonia production."
          severity := 5
          category := "ammonia"
          prediction := "Tilapia may suffer from ammonia poisoning, leading to gill damage, lethargy, and death." }
      else
        { warning := "⚠️ High ammonia levels detected! Potential stress on tilapia."
          recommendation := "Perform a partial water change and increase aeration. Reduce feeding and remove any decaying organic matter."
          severity := 4
          category := "ammonia"
          prediction := "Tilapia may experience stress, reduced appetite, and increased susceptibility to diseases if ammonia levels remain high." })
    else none)

/-- Rule `high_ammonia_crayfish` (gate above 1; severity 5 above 2.5 = mkRat 5 2). -/
def high_ammonia_crayfish (o : Obs) (_p : Period) : Option Issue :=
  o.ammonia.bind (fun v =>
    if v > 1 then
      some (if v > mkRat 5 2 then
        { warning := "⚠️ Extremely high ammonia levels detected! Toxic to crayfish."
          recommendation := "Immediately perform a partial water change to reduce ammonia levels. Increase aeration and reduce feeding to minimize ammonia production."
          severity := 5
          category := "ammonia"
          prediction := "Crayfish may suffer from ammonia poisoning, leading to lethargy and death." }
      else
        { warning := "⚠️ High ammonia levels detected! Potential stress on crayfish."
          recommendation := "Perform a partial water change and increase aeration. Reduce feeding and remove any decaying organic matter."
          severity := 4
          category := "ammonia"
          prediction := "Crayfish may experience stress and increased susceptibility to diseases if ammonia levels remain high." })
    else none)

/-- Module-level function `high_turbidity_others` (src/api.py lines
777-788): decorated but defined OUTSIDE the `OxygenPredictor` class, so
it is never registered with the engine instance used by `predict`. -/
def high_turbidity_others (o : Obs) (_p : Period) : Option Issue :=
  o.turbidity.bind (fun v =>
    if v > 50 then
      some
        { warning := "⚠️ High turbidity detected! Water is too cloudy."
          recommendation := "Reduce feeding to minimize waste. Add aquatic plants to stabilize sediment."
          severity := 3
          category := "turbidity"
          prediction := "Fish may experience gill irritation and reduced growth." }
    else none)

/-- Module-level function `extremely_high_turbidity_others` (unregistered). -/
def extremely_high_turbidity_others (o : Obs) (_p : Period) : Option Issue :=
  o.turbidity.bind (fun v =>
    if v > 100 then
      some
        { warning := "⚠️ Extremely high turbidity detected! Dangerous for fish."
          recommendation := "Immediately stop feeding and perform partial water changes. Add flocculants."
          severity := 5
          category := "turbidity"
          prediction := "Fish may suffocate from clogged gills." }
    else none)

/-- Module-level function `high_turbidity_catfish` (unregistered). -/
def high_turbidity_catfish (o : Obs) (_p : Period) : Option Issue :=
  o.turbidity.bind (fun v =>
    if v > 60 then
      some
        { warning := "⚠️ High turbidity for catfish!"
          recommendation := "Reduce feeding and improve filtration."
          severity := 3
          category := "turbidity"
          prediction := "Reduced feeding efficiency expected." }
    else none)

/-- Module-level function `extreme_turbidity_catfish` (unregistered). -/
def extreme_turbidity_catfish (o : Obs) (_p : Period) : Option Issue :=
  o.turbidity.bind (fun v =>
    if v > 100 then
      some
        { warning := "🚨 Extremely high turbidity! Catfish feeding reduced"
          recommendation := "Stop feeding for 12 hours. Add aeration and perform water change."
          severity := 4
          category := "turbidity"
          prediction := "Significant growth reduction if prolonged." }
    else none)

/-- Module-level function `high_turbidity_tilapia` (unregistered). -/
def high_turbidity_tilapia (o : Obs) (_p : Period) : Option Issue :=
  o.turbidity.bind (fun v =>
    if v > 30 then
      some
        { warning := "⚠️ Turbidity reducing tilapia feeding!"
          recommendation := "Increase feeding frequency with smaller portions."
          severity := 3
          category := "turbidity"
          prediction := "20% feed waste expected." }
    else none)

/-- Module-level function `extreme_turbidity_tilapia` (unregistered). -/
def extreme_turbidity_tilapia (o : Obs) (_p : Period) : Option Issue :=
  o.turbidity.bind (fun v =>
    if v > 50 then
      some
        { warning := "🚨 Critical turbidity for tilapia!"
          recommendation := "Emergency: Stop feeding for 24h and increase aeration."
          severity := 5
          category := "turbidity"
          prediction := "Growth stunting likely." }
    else none)

/-- Module-level function `high_turbidity_crayfish` (unregistered). -/
def high_turbidity_crayfish (o : Obs) (_p : Period) : Option Issue :=
  o.turbidity.bind (fun v =>
    if v > 20 then
      some
        { warning := "⚠️ High turbidity for crayfish!"
          recommendation := "Add limestone rocks and avoid disturbing sediment."
          severity := 3
          category := "turbidity"
          prediction := "Possible molting issues." }
    else none)

/-- Module-level function `extreme_turbidity_crayfish` (unregistered). -/
def extreme_turbidity_crayfish (o : Obs) (_p : Period) : Option Issue :=
  o.turbidity.bind (fun v =>
    if v > 30 then
      some
        { warning := "🚨 EMERGENCY: High crayfish mortality risk"
          recommendation := "Immediate action: 30% water change + banana-leaf filtration."
          severity := 5
          category := "turbidity"
          prediction := "Mass mortality during molting." }
    else none)

/-- The `@Rule` methods of `OxygenPredictor` gated on
`Fact(fish_type="others")`, in class-body order.  The module-level
turbidity functions are absent: they are not methods of the class. -/
def rules_others : List (Obs → Period → Option Issue) :=
  [critically_low_oxygen_others, high_temperature_others, low_ph_others,
   low_temperature_others, high_ph_others, high_salinity_others, high_ammonia_others]

/-- Class rules gated on `Fact(fish_type="catfish")`. -/
def rules_catfish : List (Obs → Period → Option Issue) :=
  [critically_low_oxygen_catfish, high_temperature_catfish, low_ph_catfish,
   low_temperature_catfish, high_ph_catfish, high_salinity_catfish, high_ammonia_catfish]

/-- Class rules gated on `Fact(fish_type="tilapia")`. -/
def rules_tilapia : List (Obs → Period → Option Issue) :=
  [critically_low_oxygen_tilapia, high_temperature_tilapia, low_ph_tilapia,
   low_temperature_tilapia, high_ph_tilapia, high_salinity_tilapia, high_ammonia_tilapia]

/-- Class rules gated on `Fact(fish_type="crayfish")`. -/
def rules_crayfish : List (Obs → Period → Option Issue) :=
  [critically_low_oxygen_crayfish, high_temperature_crayfish, low_ph_crayfish,
   low_temperature_crayfish, high_ph_crayfish, high_salinity_crayfish, high_ammonia_crayfish]

/-- Fire every rule of a list once against the observation, threading
the `relevant_issues` accumulator through `add_issue`. -/
def run_rules (rs : List (Obs → Period → Option Issue)) (o : Obs) (p : Period) : List Issue :=
  rs.foldl (fun st r => apply_opt st (r o p)) []

/-- The class rules whose `Fact(fish_type=...)` pattern matches the
declared fish type; a fish type matching no pattern enables no rule. -/
def rules_for (fish : String) : List (Obs → Period → Option Issue) :=
  if fish = "others" then rules_others
  else if fish = "catfish" then rules_catfish
  else if fish = "tilapia" then rules_tilapia
  else if fish = "crayfish" then rules_crayfish
  else []

/-- One engine run (`predictor.reset(); declare(...); run()`): exactly
the class rules whose `Fact(fish_type=...)` pattern matches the declared
fish type fire.  No rule calls `add_positive_feedback`, so that
accumulator keeps its initial empty value. -/
def run_engine (fish : String) (o : Obs) (p : Period) : EngineState :=
  { relevant_issues := run_rules (rules_for fish) o p
    positive_feedback := [] }

/-- The sort key of `finalize_decision`: severity descending.  Python's
`list.sort(key=..., reverse=True)` is the unique stable sort for this
total preorder, which `List.insertionSort` implements. -/
def sevGE (a b : Issue) : Prop := b.severity ≤ a.severity

instance : DecidableRel sevGE := fun a b => Nat.decLe b.severity a.severity

instance : IsTotal Issue sevGE := ⟨fun a b => Nat.le_total b.severity a.severity⟩

instance : IsTrans Issue sevGE := ⟨fun _ _ _ h h2 => Nat.le_trans h2 h⟩

/-- `OxygenPredictor.finalize_decision`. -/
def finalize_decision (st : EngineState) : Response :=
  if st.relevant_issues = [] then
    { warnings := ["✅ All water parameters are in optimal range!"]
      recommendations := ["Maintain regular monitoring and continue good pond management practices."]
      predictions := []
      positive_feedback := st.positive_feedback.map (fun f => f.message)
      positive_suggestions := st.positive_feedback.map (fun f => f.suggestion) }
  else
    { warnings := (st.relevant_issues.insertionSort sevGE).map (fun i => i.warning)
      recommendations := (st.relevant_issues.insertionSort sevGE).map (fun i => i.recommendation)
      predictions := (st.relevant_issues.insertionSort sevGE).map (fun i => i.prediction)
      positive_feedback := st.positive_feedback.map (fun f => f.message)
      positive_suggestions := st.positive_feedback.map (fun f => f.suggestion) }

/-- A JSON field value of the request body. -/
inductive JVal where
  | num (q : ℚ)
  | str (s : String)
  | other
deriving DecidableEq

/-- Request body: association list of JSON fields. -/
def lookupKey (data : List (String × JVal)) (k : String) : Option JVal :=
  (data.find? (fun kv => kv.1 == k)).map (fun kv => kv.2)

/-- `required_keys` of `predict`. -/
def required_keys : List String :=
  ["ph_level", "dissolved_oxygen", "temperature", "salinity", "ammonia", "turbidity"]

/-- One iteration of the validation loop in `predict`: missing key,
then non-numeric, then negative. -/
def check_key (data : List (String × JVal)) (k : String) : Option String :=
  match lookupKey data k with
  | none => some ("Missing key in input data: " ++ k)
  | some (JVal.num v) => if v < 0 then some (k ++ " must be non-negative!") else none
  | some _ => some (k ++ " must be a number!")

/-- The first 400 error produced by the validation loop of `predict`,
or `none` when the body passes validation. -/
def validate_first_error (data : List (String × JVal)) : Option String :=
  required_keys.findSome? (check_key data)

/-- `data.get('fish_type', 'others')`. -/
def fish_type_of (data : List (String × JVal)) : JVal :=
  (lookupKey data "fish_type").getD (JVal.str "others")

/-- Numeric field extraction for the declared `Fact(**data)`. -/
def num_of (data : List (String × JVal)) (k : String) : Option ℚ :=
  match lookupKey data k with
  | some (JVal.num v) => some v
  | _ => none

/-- The observation carried by the single `Fact(**data)`. -/
def obs_of (data : List (String × JVal)) : Obs :=
  { dissolved_oxygen := num_of data "dissolved_oxygen"
    temperature := num_of data "temperature"
    ph_level := num_of data "ph_level"
    salinity := num_of data "salinity"
    ammonia := num_of data "ammonia"
    turbidity := num_of data "turbidity" }

/-- The `/predict` endpoint: validate, then run the engine and finalize.
`Except.error` is the 400 response.  A non-string `fish_type` value
matches no `Fact(fish_type="...")` pattern, exactly like an unknown
string; it is mapped to a sentinel string that no rule scope equals. -/
def predict (data : List (String × JVal)) (p : Period) : Except String Response :=
  match validate_first_error data with
  | some e => Except.error e
  | none =>
    let fish := match fish_type_of data with
      | JVal.str s => s
      | _ => "(non-string fish_type)"
    Except.ok (finalize_decision (run_engine fish (obs_of data) p))

/-- Scenario observation of C4: all parameters present,
`{dissolved_oxygen: 7, temperature: 7, pH: 7, ammonia: 0, salinity: 0}`. -/
def obsC4 : Obs :=
  { dissolved_oxygen := some 7, temperature := some 7, ph_level := some 7,
    salinity := some 0, ammonia := some 0, turbidity := some 0 }

/-- Scenario observation of C5:
`{dissolved_oxygen: 2, ammonia: 2, temperature: 35, pH: 7, salinity: 0}`. -/
def obsC5 : Obs :=
  { dissolved_oxygen := some 2, temperature := some 35, ph_level := some 7,
    salinity := some 0, ammonia := some 2, turbidity := some 0 }

/-- An observation breaching no rule of the "others" profile. -/
def obsCalm : Obs :=
  { dissolved_oxygen := some 7, temperature := some 25, ph_level := some 7,
    salinity := some 0, ammonia := some 0, turbidity := some 0 }

/-- An observation whose every parameter is absent. -/
def obsNone : Obs :=
  { dissolved_oxygen := none, temperature := none, ph_level := none,
    salinity := none, ammonia := none, turbidity := none }

/-- Observation with turbidity 60, where both tilapia turbidity bands
(`> 30` and `> 50`) hold. -/
def obsTurb60 : Obs :=
  { dissolved_oxygen := some 7, temperature := some 27, ph_level := some 7,
    salinity := some 0, ammonia := some 0, turbidity := some 60 }

/-- A request body omitting the `turbidity` field. -/
def bodyNoTurbidity : List (String × JVal) :=
  [("ph_level", JVal.num 7), ("dissolved_oxygen", JVal.num 7),
   ("temperature", JVal.num 25), ("salinity", JVal.num 0), ("ammonia", JVal.num 0)]

/-- A complete, valid request body. -/
def bodyFull : List (String × JVal) :=
  [("ph_level", JVal.num 7), ("dissolved_oxygen", JVal.num 7),
   ("temperature", JVal.num 25), ("salinity", JVal.num 0), ("ammonia", JVal.num 0),
   ("turbidity", JVal.num 10)]

/-! ## Helper lemmas -/

/-- Issues whose warnings are pairwise distinct. -/
def distinctW (st : List Issue) : Prop :=
  st.Pairwise (fun a b => a.warning ≠ b.warning)

theorem add_issue_eq_of_mem (st : List Issue) (i : Issue)
    (h : ∃ j ∈ st, j.warning = i.warning) : add_issue st i = st := by
  unfold add_issue
  rw [if_pos]
  rw [List.any_eq_true]
  obtain ⟨j, hj, hw⟩ := h
  exact ⟨j, hj, by simpa using hw⟩

theorem mem_add_issue {st : List Issue} {i x : Issue}
    (h : x ∈ add_issue st i) : x ∈ st ∨ x = i := by
  unfold add_issue at h
  split at h
  · exact Or.inl h
  · rcases List.mem_append.mp h with h1 | h1
    · exact Or.inl h1
    · exact Or.inr (List.mem_singleton.mp h1)

theorem add_issue_distinct {st : List Issue} (i : Issue)
    (h : distinctW st) : distinctW (add_issue st i) := by
  unfold add_issue
  split
  · exact h
  · rename_i hany
    refine List.pairwise_append.mpr ⟨h, List.pairwise_singleton _ _, ?_⟩
    intro j hj k hk
    rw [List.mem_singleton] at hk
    subst hk
    intro heq
    exact hany (List.any_eq_true.mpr ⟨j, hj, by simpa using heq⟩)

theorem mem_apply_opt {st : List Issue} {r : Option Issue} {x : Issue}
    (h : x ∈ apply_opt st r) : x ∈ st ∨ r = some x := by
  cases r with
  | none => exact Or.inl h
  | some i =>
    rcases mem_add_issue h with h1 | h1
    · exact Or.inl h1
    · exact Or.inr (by rw [h1])

theorem apply_opt_distinct {st : List Issue} (r : Option Issue)
    (h : distinctW st) : distinctW (apply_opt st r) := by
  cases r with
  | none => exact h
  | some i => exact add_issue_distinct i h

theorem mem_run_rules_aux (rs : List (Obs → Period → Option Issue)) (o : Obs) (p : Period)
    (acc : List Issue) (x : Issue)
    (h : x ∈ rs.foldl (fun st r => apply_opt st (r o p)) acc) :
    x ∈ acc ∨ ∃ r ∈ rs, r o p = some x := by
  induction rs generalizing acc with
  | nil => exact Or.inl h
  | cons r rs ih =>
    rcases ih (apply_opt acc (r o p)) h with h1 | h1
    · rcases mem_apply_opt h1 with h2 | h2
      · exact Or.inl h2
      · exact Or.inr ⟨r, List.mem_cons_self r rs, h2⟩
    · obtain ⟨r', hr', he⟩ := h1
      exact Or.inr ⟨r', List.mem_cons_of_mem r hr', he⟩

theorem mem_run_rules {rs : List (Obs → Period → Option Issue)} {o : Obs} {p : Period}
    {x : Issue} (h : x ∈ run_rules rs o p) : ∃ r ∈ rs, r o p = some x := by
  rcases mem_run_rules_aux rs o p [] x h with h1 | h1
  · cases h1
  · exact h1

theorem run_rules_distinct_aux (rs : List (Obs → Period → Option Issue)) (o : Obs) (p : Period)
    (acc : List Issue) (h : distinctW acc) :
    distinctW (rs.foldl (fun st r => apply_opt st (r o p)) acc) := by
  induction rs generalizing acc with
  | nil => exact h
  | cons r rs ih => exact ih _ (apply_opt_distinct _ h)

theorem run_rules_distinct (rs : List (Obs → Period → Option Issue)) (o : Obs) (p : Period) :
    distinctW (run_rules rs o p) :=
  run_rules_distinct_aux rs o p [] List.Pairwise.nil

/-! Per-rule facts: a fired rule renders an issue of the rule's fixed
category, and requires its referenced parameter to be present. -/

theorem critically_low_oxygen_others_spec {o : Obs} {p : Period} {i : Issue}
    (h : critically_low_oxygen_others o p = some i) :
    i.category = "oxygen" ∧ o.dissolved_oxygen.isSome = true := by
  unfold critically_low_oxygen_others at h
  rcases ho : o.dissolved_oxygen with _ | v <;> rw [ho] at h
  · simp at h
  · simp only [Option.some_bind] at h
    split at h
    · rw [Option.some_inj] at h
      subst h
      exact ⟨by split <;> rfl, rfl⟩
    · simp at h

theorem critically_low_oxygen_catfish_spec {o : Obs} {p : Period} {i : Issue}
    (h : critically_low_oxygen_catfish o p = some i) :
    i.category = "oxygen" ∧ o.dissolved_oxygen.isSome = true := by
  unfold critically_low_oxygen_catfish at h
  rcases ho : o.dissolved_oxygen with _ | v <;> rw [ho] at h
  · simp at h
  · simp only [Option.some_bind] at h
    split at h
    · rw [Option.some_inj] at h
      subst h
      exact ⟨by split <;> rfl, rfl⟩
    · simp at h

theorem critically_low_oxygen_tilapia_spec {o : Obs} {p : Period} {i : Issue}
    (h : critically_low_oxygen_tilapia o p = some i) :
    i.category = "oxygen" ∧ o.dissolved_oxygen.isSome = true := by
  unfold critically_low_oxygen_tilapia at h
  rcases ho : o.dissolved_oxygen with _ | v <;> rw [ho] at h
  · simp at h
  · simp only [Option.some_bind] at h
    split at h
    · rw [Option.some_inj] at h
      subst h
      exact ⟨by split <;> rfl, rfl⟩
    · simp at h

theorem critically_low_oxygen_crayfish_spec {o : Obs} {p : Period} {i : Issue}
    (h : critically_low_oxygen_crayfish o p = some i) :
    i.category = "oxygen" ∧ o.dissolved_oxygen.isSome = true := by
  unfold critically_low_oxygen_crayfish at h
  rcases ho : o.dissolved_oxygen with _ | v <;> rw [ho] at h
  · simp at h
  · simp only [Option.some_bind] at h
    split at h
    · rw [Option.some_inj] at h
      subst h
      exact ⟨by split <;> rfl, rfl⟩
    · simp at h

theorem high_temperature_others_spec {o : Obs} {p : Period} {i : Issue}
    (h : high_temperature_others o p = some i) :
    i.category = "temperature" ∧ o.temperature.isSome = true := by
  unfold high_temperature_others at h
  rcases ho : o.temperature with _ | v <;> rw [ho] at h
  · simp at h
  · simp only [Option.some_bind] at h
    split at h
    · rw [Option.some_inj] at h
      subst h
      exact ⟨by cases p <;> rfl, rfl⟩
    · simp at h

theorem high_temperature_catfish_spec {o : Obs} {p : Period} {i : Issue}
    (h : high_temperature_catfish o p = some i) :
    i.category = "temperature" ∧ o.temperature.isSome = true := by
  unfold high_temperature_catfish at h
  rcases ho : o.temperature with _ | v <;> rw [ho] at h
  · simp at h
  · simp only [Option.some_bind] at h
    split at h
    · rw [Option.some_inj] at h
      subst h
      exact ⟨by cases p <;> rfl, rfl⟩
    · simp at h

theorem high_temperature_tilapia_spec {o : Obs} {p : Period} {i : Issue}
    (h : high_temperature_tilapia o p = some i) :
    i.category = "temperature" ∧ o.temperature.isSome = true := by
  unfold high_temperature_tilapia at h
  rcases ho : o.temperature with _ | v <;> rw [ho] at h
  · simp at h
  · simp only [Option.some_bind] at h
    split at h
    · rw [Option.some_inj] at h
      subst h
      exact ⟨by cases p <;> rfl, rfl⟩
    · simp at h

theorem high_temperature_crayfish_spec {o : Obs} {p : Period} {i : Issue}
    (h : high_temperature_crayfish o p = some i) :
    i.category = "temperature" ∧ o.temperature.isSome = true := by
  unfold high_temperature_crayfish at h
  rcases ho : o.temperature with _ | v <;> rw [ho] at h
  · simp at h
  · simp only [Option.some_bind] at h
    split at h
    · rw [Option.some_inj] at h
      subst h
      exact ⟨by cases p <;> rfl, rfl⟩
    · simp at h

theorem low_ph_others_spec {o : Obs} {p : Period} {i : Issue}
    (h : low_ph_others o p = some i) :
    i.category = "ph" ∧ o.ph_level.isSome = true := by
  unfold low_ph_others at h
  rcases ho : o.ph_level with _ | v <;> rw [ho] at h
  · simp at h
  · simp only [Option.some_bind] at h
    split at h
    · rw [Option.some_inj] at h
      subst h
      exact ⟨by split <;> rfl, rfl⟩
    · simp at h

theorem low_ph_catfish_spec {o : Obs} {p : Period} {i : Issue}
    (h : low_ph_catfish o p = some i) :
    i.category = "ph" ∧ o.ph_level.isSome = true := by
  unfold low_ph_catfish at h
  rcases ho : o.ph_level with _ | v <;> rw [ho] at h
  · simp at h
  · simp only [Option.some_bind] at h
    split at h
    · rw [Option.some_inj] at h
      subst h
      exact ⟨rfl, rfl⟩
    · simp at h

theorem low_ph_tilapia_spec {o : Obs} {p : Period} {i : Issue}
    (h : low_ph_tilapia o p = some i) :
    i.category = "ph" ∧ o.ph_level.isSome = true := by
  unfold low_ph_tilapia at h
  rcases ho : o.ph_level with _ | v <;> rw [ho] at h
  · simp at h
  · simp only [Option.some_bind] at h
    split at h
    · rw [Option.some_inj] at h
      subst h
      exact ⟨rfl, rfl⟩
    · simp at h

theorem low_ph_crayfish_spec {o : Obs} {p : Period} {i : Issue}
    (h : low_ph_crayfish o p = some i) :
    i.category = "ph" ∧ o.ph_level.isSome = true := by
  unfold low_ph_crayfish at h
  rcases ho : o.ph_level with _ | v <;> rw [ho] at h
  · simp at h
  · simp only [Option.some_bind] at h
    split at h
    · rw [Option.some_inj] at h
      subst h
      exact ⟨rfl, rfl⟩
    · simp at h

theorem low_temperature_others_spec {o : Obs} {p : Period} {i : Issue}
    (h : low_temperature_others o p = some i) :
    i.category = "temperature" ∧ o.temperature.isSome = true := by
  unfold low_temperature_others at h
  rcases ho : o.temperature with _ | v <;> rw [ho] at h
  · simp at h
  · simp only [Option.some_bind] at h
    split at h
    · rw [Option.some_inj] at h
      subst h
      exact ⟨by cases p <;> rfl, rfl⟩
    · simp at h

theorem low_temperature_catfish_spec {o : Obs} {p : Period} {i : Issue}
    (h : low_temperature_catfish o p = some i) :
    i.category = "temperature" ∧ o.temperature.isSome = true := by
  unfold low_temperature_catfish at h
  rcases ho : o.temperature with _ | v <;> rw [ho] at h
  · simp at h
  · simp only [Option.some_bind] at h
    split at h
    · rw [Option.some_inj] at h
      subst h
      exact ⟨by cases p <;> rfl, rfl⟩
    · simp at h

theorem low_temperature_tilapia_spec {o : Obs} {p : Period} {i : Issue}
    (h : low_temperature_tilapia o p = some i) :
    i.category = "temperature" ∧ o.temperature.isSome = true := by
  unfold low_temperature_tilapia at h
  rcases ho : o.temperature with _ | v <;> rw [ho] at h
  · simp at h
  · simp only [Option.some_bind] at h
    split at h
    · rw [Option.some_inj] at h
      subst h
      exact ⟨by cases p <;> rfl, rfl⟩
    · simp at h

theorem low_temperature_crayfish_spec {o : Obs} {p : Period} {i : Issue}
    (h : low_temperature_crayfish o p = some i) :
    i.category = "temperature" ∧ o.temperature.isSome = true := by
  unfold low_temperature_crayfish at h
  rcases ho : o.temperature with _ | v <;> rw [ho] at h
  · simp at h
  · simp only [Option.some_bind] at h
    split at h
    · rw [Option.some_inj] at h
      subst h
      exact ⟨by cases p <;> rfl, rfl⟩
    · simp at h

theorem high_ph_others_spec {o : Obs} {p : Period} {i : Issue}
    (h : high_ph_others o p = some i) :
    i.category = "ph" ∧ o.ph_level.isSome = true := by
  unfold high_ph_others at h
  rcases ho : o.ph_level with _ | v <;> rw [ho] at h
  · simp at h
  · simp only [Option.some_bind] at h
    split at h
    · rw [Option.some_inj] at h
      subst h
      exact ⟨rfl, rfl⟩
    · simp at h

theorem high_ph_catfish_spec {o : Obs} {p : Period} {i : Issue}
    (h : high_ph_catfish o p = some i) :
    i.category = "ph" ∧ o.ph_level.isSome = true := by
  unfold high_ph_catfish at h
  rcases ho : o.ph_level with _ | v <;> rw [ho] at h
  · simp at h
  · simp only [Option.some_bind] at h
    split at h
    · rw [Option.some_inj] at h
      subst h
      exact ⟨rfl, rfl⟩
    · simp at h

theorem high_ph_tilapia_spec {o : Obs} {p : Period} {i : Issue}
    (h : high_ph_tilapia o p = some i) :
    i.category = "ph" ∧ o.ph_level.isSome = true := by
  unfold high_ph_tilapia at h
  rcases ho : o.ph_level with _ | v <;> rw [ho] at h
  · simp at h
  · simp only [Option.some_bind] at h
    split at h
    · rw [Option.some_inj] at h
      subst h
      exact ⟨rfl, rfl⟩
    · simp at h

theorem high_ph_crayfish_spec {o : Obs} {p : Period} {i : Issue}
    (h : high_ph_crayfish o p = some i) :
    i.category = "ph" ∧ o.ph_level.isSome = true := by
  unfold high_ph_crayfish at h
  rcases ho : o.ph_level with _ | v <;> rw [ho] at h
  · simp at h
  · simp only [Option.some_bind] at h
    split at h
    · rw [Option.some_inj] at h
      subst h
      exact ⟨rfl, rfl⟩
    · simp at h

theorem high_salinity_others_spec {o : Obs} {p : Period} {i : Issue}
    (h : high_salinity_others o p = some i) :
    i.category = "salinity" ∧ o.salinity.isSome = true := by
  unfold high_salinity_others at h
  rcases ho : o.salinity with _ | v <;> rw [ho] at h
  · simp at h
  · simp only [Option.some_bind] at h
    split at h
    · rw [Option.some_inj] at h
      subst h
      exact ⟨rfl, rfl⟩
    · simp at h

theorem high_salinity_catfish_spec {o : Obs} {p : Period} {i : Issue}
    (h : high_salinity_catfish o p = some i) :
    i.category = "salinity" ∧ o.salinity.isSome = true := by
  unfold high_salinity_catfish at h
  rcases ho : o.salinity with _ | v <;> rw [ho] at h
  · simp at h
  · simp only [Option.some_bind] at h
    split at h
    · rw [Option.some_inj] at h
      subst h
      exact ⟨rfl, rfl⟩
    · simp at h

theorem high_salinity_tilapia_spec {o : Obs} {p : Period} {i : Issue}
    (h : high_salinity_tilapia o p = some i) :
    i.category = "salinity" ∧ o.salinity.isSome = true := by
  unfold high_salinity_tilapia at h
  rcases ho : o.salinity with _ | v <;> rw [ho] at h
  · simp at h
  · simp only [Option.some_bind] at h
    split at h
    · rw [Option.some_inj] at h
      subst h
      exact ⟨rfl, rfl⟩
    · simp at h

theorem high_salinity_crayfish_spec {o : Obs} {p : Period} {i : Issue}
    (h : high_salinity_crayfish o p = some i) :
    i.category = "salinity" ∧ o.salinity.isSome = true := by
  unfold high_salinity_crayfish at h
  rcases ho : o.salinity with _ | v <;> rw [ho] at h
  · simp at h
  · simp only [Option.some_bind] at h
    split at h
    · rw [Option.some_inj] at h
      subst h
      exact ⟨rfl, rfl⟩
    · simp at h

theorem high_ammonia_others_spec {o : Obs} {p : Period} {i : Issue}
    (h : high_ammonia_others o p = some i) :
    i.category = "ammonia" ∧ o.ammonia.isSome = true := by
  unfold high_ammonia_others at h
  rcases ho : o.ammonia with _ | v <;> rw [ho] at h
  · simp at h
  · simp only [Option.some_bind] at h
    split at h
    · rw [Option.some_inj] at h
      subst h
      exact ⟨by split <;> rfl, rfl⟩
    · simp at h

theorem high_ammonia_catfish_spec {o : Obs} {p : Period} {i : Issue}
    (h : high_ammonia_catfish o p = some i) :
    i.category = "ammonia" ∧ o.ammonia.isSome = true := by
  unfold high_ammonia_catfish at h
  rcases ho : o.ammonia with _ | v <;> rw [ho] at h
  · simp at h
  · simp only [Option.some_bind] at h
    split at h
    · rw [Option.some_inj] at h
      subst h
      exact ⟨by split <;> rfl, rfl⟩
    · simp at h

theorem high_ammonia_tilapia_spec {o : Obs} {p : Period} {i : Issue}
    (h : high_ammonia_tilapia o p = some i) :
    i.category = "ammonia" ∧ o.ammonia.isSome = true := by
  unfold high_ammonia_tilapia at h
  rcases ho : o.ammonia with _ | v <;> rw [ho] at h
  · simp at h
  · simp only [Option.some_bind] at h
    split at h
    · rw [Option.some_inj] at h
      subst h
      exact ⟨by split <;> rfl, rfl⟩
    · simp at h

theorem high_ammonia_crayfish_spec {o : Obs} {p : Period} {i : Issue}
    (h : high_ammonia_crayfish o p = some i) :
    i.category = "ammonia" ∧ o.ammonia.isSome = true := by
  unfold high_ammonia_crayfish at h
  rcases ho : o.ammonia with _ | v <;> rw [ho] at h
  · simp at h
  · simp only [Option.some_bind] at h
    split at h
    · rw [Option.some_inj] at h
      subst h
      exact ⟨by split <;> rfl, rfl⟩
    · simp at h

/-- Every issue an engine run collects carries the fixed category of the
rule that produced it, and that rule's parameter was present. -/
theorem engine_issue_shape {fish : String} {o : Obs} {p : Period} {i : Issue}
    (h : i ∈ (run_engine fish o p).relevant_issues) :
    (i.category = "oxygen" ∧ o.dissolved_oxygen.isSome = true) ∨
    (i.category = "temperature" ∧ o.temperature.isSome = true) ∨
    (i.category = "ph" ∧ o.ph_level.isSome = true) ∨
    (i.category = "salinity" ∧ o.salinity.isSome = true) ∨
    (i.category = "ammonia" ∧ o.ammonia.isSome = true) := by
  obtain ⟨r, hr, he⟩ := mem_run_rules h
  unfold rules_for at hr
  split at hr
  · simp only [rules_others, List.mem_cons, List.not_mem_nil, or_false] at hr
    rcases hr with rfl | rfl | rfl | rfl | rfl | rfl | rfl
    · exact Or.inl (critically_low_oxygen_others_spec he)
    · exact Or.inr (Or.inl (high_temperature_others_spec he))
    · exact Or.inr (Or.inr (Or.inl (low_ph_others_spec he)))
    · exact Or.inr (Or.inl (low_temperature_others_spec he))
    · exact Or.inr (Or.inr (Or.inl (high_ph_others_spec he)))
    · exact Or.inr (Or.inr (Or.inr (Or.inl (high_salinity_others_spec he))))
    · exact Or.inr (Or.inr (Or.inr (Or.inr (high_ammonia_others_spec he))))
  · split at hr
    · simp only [rules_catfish, List.mem_cons, List.not_mem_nil, or_false] at hr
      rcases hr with rfl | rfl | rfl | rfl | rfl | rfl | rfl
      · exact Or.inl (critically_low_oxygen_catfish_spec he)
      · exact Or.inr (Or.inl (high_temperature_catfish_spec he))
      · exact Or.inr (Or.inr (Or.inl (low_ph_catfish_spec he)))
      · exact Or.inr (Or.inl (low_temperature_catfish_spec he))
      · exact Or.inr (Or.inr (Or.inl (high_ph_catfish_spec he)))
      · exact Or.inr (Or.inr (Or.inr (Or.inl (high_salinity_catfish_spec he))))
      · exact Or.inr (Or.inr (Or.inr (Or.inr (high_ammonia_catfish_spec he))))
    · split at hr
      · simp only [rules_tilapia, List.mem_cons, List.not_mem_nil, or_false] at hr
        rcases hr with rfl | rfl | rfl | rfl | rfl | rfl | rfl
        · exact Or.inl (critically_low_oxygen_tilapia_spec he)
        · exact Or.inr (Or.inl (high_temperature_tilapia_spec he))
        · exact Or.inr (Or.inr (Or.inl (low_ph_tilapia_spec he)))
        · exact Or.inr (Or.inl (low_temperature_tilapia_spec he))
        · exact Or.inr (Or.inr (Or.inl (high_ph_tilapia_spec he)))
        · exact Or.inr (Or.inr (Or.inr (Or.inl (high_salinity_tilapia_spec he))))
        · exact Or.inr (Or.inr (Or.inr (Or.inr (high_ammonia_tilapia_spec he))))
      · split at hr
        · simp only [rules_crayfish, List.mem_cons, List.not_mem_nil, or_false] at hr
          rcases hr with rfl | rfl | rfl | rfl | rfl | rfl | rfl
          · exact Or.inl (critically_low_oxygen_crayfish_spec he)
          · exact Or.inr (Or.inl (high_temperature_crayfish_spec he))
          · exact Or.inr (Or.inr (Or.inl (low_ph_crayfish_spec he)))
          · exact Or.inr (Or.inl (low_temperature_crayfish_spec he))
          · exact Or.inr (Or.inr (Or.inl (high_ph_crayfish_spec he)))
          · exact Or.inr (Or.inr (Or.inr (Or.inl (high_salinity_crayfish_spec he))))
          · exact Or.inr (Or.inr (Or.inr (Or.inr (high_ammonia_crayfish_spec he))))
        · cases hr

/-- No engine run ever collects a turbidity-category issue: the
turbidity rule functions are not methods of the class, hence are in no
`rules_for` list. -/
theorem engine_no_turbidity (fish : String) (o : Obs) (p : Period) :
    ((run_engine fish o p).relevant_issues.all (fun i => i.category != "turbidity")) = true := by
  rw [List.all_eq_true]
  intro i hi
  rw [bne_iff_ne]
  rcases engine_issue_shape hi with ⟨hc, _⟩ | ⟨hc, _⟩ | ⟨hc, _⟩ | ⟨hc, _⟩ | ⟨hc, _⟩ <;>
    rw [hc] <;> decide

/-! Mutual exclusivity of the registered band rules that share a
category and a profile scope: the two temperature bands and the two pH
bands of each fish type. -/

theorem temp_bands_mutually_exclusive_others (o : Obs) (p : Period) :
    ((high_temperature_others o p).isSome && (low_temperature_others o p).isSome) = false := by
  rcases ho : o.temperature with _ | v
  · simp [high_temperature_others, low_temperature_others, ho]
  · simp only [high_temperature_others, low_temperature_others, ho, Option.some_bind]
    by_cases h1 : v > 30
    · have h2 : ¬ v < 20 := by linarith
      simp [h1, h2]
    · simp [h1]

theorem temp_bands_mutually_exclusive_catfish (o : Obs) (p : Period) :
    ((high_temperature_catfish o p).isSome && (low_temperature_catfish o p).isSome) = false := by
  rcases ho : o.temperature with _ | v
  · simp [high_temperature_catfish, low_temperature_catfish, ho]
  · simp only [high_temperature_catfish, low_temperature_catfish, ho, Option.some_bind]
    by_cases h1 : v > 32
    · have h2 : ¬ v < 25 := by linarith
      simp [h1, h2]
    · simp [h1]

theorem temp_bands_mutually_exclusive_tilapia (o : Obs) (p : Period) :
    ((high_temperature_tilapia o p).isSome && (low_temperature_tilapia o p).isSome) = false := by
  rcases ho : o.temperature with _ | v
  · simp [high_temperature_tilapia, low_temperature_tilapia, ho]
  · simp only [high_temperature_tilapia, low_temperature_tilapia, ho, Option.some_bind]
    by_cases h1 : v > 30
    · have h2 : ¬ v < 26 := by linarith
      simp [h1, h2]
    · simp [h1]

theorem temp_bands_mutually_exclusive_crayfish (o : Obs) (p : Period) :
    ((high_temperature_crayfish o p).isSome && (low_temperature_crayfish o p).isSome) = false := by
  rcases ho : o.temperature with _ | v
  · simp [high_temperature_crayfish, low_temperature_crayfish, ho]
  · simp only [high_temperature_crayfish, low_temperature_crayfish, ho, Option.some_bind]
    by_cases h1 : v > 24
    · have h2 : ¬ v < 18 := by linarith
      simp [h1, h2]
    · simp [h1]

theorem ph_bands_mutually_exclusive_others (o : Obs) (p : Period) :
    ((low_ph_others o p).isSome && (high_ph_others o p).isSome) = false := by
  rcases ho : o.ph_level with _ | v
  · simp [low_ph_others, high_ph_others, ho]
  · simp only [low_ph_others, high_ph_others, ho, Option.some_bind]
    by_cases h1 : v < 6
    · have h2 : ¬ v > 8 := by linarith
      simp [h1, h2]
    · simp [h1]

theorem ph_bands_mutually_exclusive_catfish (o : Obs) (p : Period) :
    ((low_ph_catfish o p).isSome && (high_ph_catfish o p).isSome) = false := by
  rcases ho : o.ph_level with _ | v
  · simp [low_ph_catfish, high_ph_catfish, ho]
  · simp only [low_ph_catfish, high_ph_catfish, ho, Option.some_bind]
    by_cases h1 : v < mkRat 13 2
    · have hc : (mkRat 13 2 : ℚ) ≤ 8 := by rw [Rat.mkRat_eq_div]; norm_num
      have h2 : ¬ v > 8 := by linarith
      simp [h1, h2]
    · simp [h1]

theorem ph_bands_mutually_exclusive_tilapia (o : Obs) (p : Period) :
    ((low_ph_tilapia o p).isSome && (high_ph_tilapia o p).isSome) = false := by
  rcases ho : o.ph_level with _ | v
  · simp [low_ph_tilapia, high_ph_tilapia, ho]
  · simp only [low_ph_tilapia, high_ph_tilapia, ho, Option.some_bind]
    by_cases h1 : v < mkRat 13 2
    · have hc : (mkRat 13 2 : ℚ) ≤ mkRat 17 2 := by
        rw [Rat.mkRat_eq_div, Rat.mkRat_eq_div]; norm_num
      have h2 : ¬ v > mkRat 17 2 := by linarith
      simp [h1, h2]
    · simp [h1]

theorem ph_bands_mutually_exclusive_crayfish (o : Obs) (p : Period) :
    ((low_ph_crayfish o p).isSome && (high_ph_crayfish o p).isSome) = false := by
  rcases ho : o.ph_level with _ | v
  · simp [low_ph_crayfish, high_ph_crayfish, ho]
  · simp only [low_ph_crayfish, high_ph_crayfish, ho, Option.some_bind]
    by_cases h1 : v < mkRat 13 2
    · have hc : (mkRat 13 2 : ℚ) ≤ mkRat 15 2 := by
        rw [Rat.mkRat_eq_div, Rat.mkRat_eq_div]; norm_num
      have h2 : ¬ v > mkRat 15 2 := by linarith
      simp [h1, h2]
    · simp [h1]

/-! Stability of the severity sort: filtering the sorted list at any
fixed severity returns the issues of that severity in collection
order. -/

theorem orderedInsert_filter_sev (k : Nat) (a : Issue) (l : List Issue) :
    ((l.orderedInsert sevGE a).filter (fun i => i.severity == k)) =
      if a.severity == k then a :: l.filter (fun i => i.severity == k)
      else l.filter (fun i => i.severity == k) := by
  rw [List.orderedInsert_eq_take_drop]
  rw [List.filter_append, List.filter_cons]
  by_cases hk : (a.severity == k) = true
  · rw [if_pos hk, if_pos hk]
    have htake : (l.takeWhile (fun b => decide ¬ sevGE a b)).filter (fun i => i.severity == k) = [] := by
      rw [List.filter_eq_nil_iff]
      intro b hb
      have hpb := List.mem_takeWhile_imp hb
      rw [decide_eq_true_eq] at hpb
      unfold sevGE at hpb
      push_neg at hpb
      have hak : a.severity = k := by simpa using hk
      have : b.severity ≠ k := by omega
      simpa using this
    rw [htake]
    have hl : l.takeWhile (fun b => decide ¬ sevGE a b) ++ l.dropWhile (fun b => decide ¬ sevGE a b) = l :=
      List.takeWhile_append_dropWhile _ _
    calc ([] : List Issue) ++ a :: (l.dropWhile (fun b => decide ¬ sevGE a b)).filter (fun i => i.severity == k)
        = a :: ((l.takeWhile (fun b => decide ¬ sevGE a b)).filter (fun i => i.severity == k)
            ++ (l.dropWhile (fun b => decide ¬ sevGE a b)).filter (fun i => i.severity == k)) := by
          rw [htake]; rfl
      _ = a :: l.filter (fun i => i.severity == k) := by rw [← List.filter_append, hl]
  · rw [if_neg hk, if_neg hk]
    rw [← List.filter_append, List.takeWhile_append_dropWhile]

theorem insertionSort_filter_sev (k : Nat) (l : List Issue) :
    ((l.insertionSort sevGE).filter (fun i => i.severity == k)) =
      l.filter (fun i => i.severity == k) := by
  induction l with
  | nil => rfl
  | cons a l ih =>
    rw [List.insertionSort, orderedInsert_filter_sev, ih, List.filter_cons]

/-- A body key passes validation exactly when it is present, numeric
and non-negative. -/
theorem check_key_none_iff (data : List (String × JVal)) (k : String) :
    check_key data k = none ↔ ∃ v, lookupKey data k = some (JVal.num v) ∧ 0 ≤ v := by
  unfold check_key
  rcases hl : lookupKey data k with _ | jv
  · simp
  · rcases jv with q | s | _
    · dsimp only
      by_cases hq : q < 0
      · rw [if_pos hq]
        constructor
        · intro h; simp at h
        · rintro ⟨v, hv, hle⟩
          rw [Option.some_inj] at hv
          cases hv
          linarith
      · rw [if_neg hq]
        constructor
        · intro _; exact ⟨q, rfl, le_of_not_lt hq⟩
        · intro _; rfl
    · simp
    · simp

/-! ## Claims -/

/-- Claim C1, counterexample: on an observation firing no rule, the
response has a NON-empty warnings list (the positive message is placed
into the warnings box) and the positive fields stay empty, contradicting
the claim that warnings is empty and positive_message is populated. -/
theorem no_issue_counterexample :
    (finalize_decision (run_engine "others" obsCalm Period.morning)).warnings ≠ [] ∧
    (finalize_decision (run_engine "others" obsCalm Period.morning)).positive_feedback = [] := by
  decide

/-- Claim C1, amended: when no rule fires, `finalize_decision` puts the
positive message into `warnings` and the maintenance suggestion into
`recommendations`, with empty predictions; and for EVERY observation,
with or without issues, `positive_feedback` and `positive_suggestions`
are empty (no rule ever calls `add_positive_feedback`). -/
theorem no_issue_fallback (fish : String) (o : Obs) (p : Period)
    (fishB : String) (oB : Obs) (pB : Period)
    (h : (run_engine fish o p).relevant_issues = []) :
    finalize_decision (run_engine fish o p) =
      { warnings := ["✅ All water parameters are in optimal range!"]
        recommendations := ["Maintain regular monitoring and continue good pond management practices."]
        predictions := []
        positive_feedback := []
        positive_suggestions := [] } ∧
    (finalize_decision (run_engine fishB oB pB)).positive_feedback = [] ∧
    (finalize_decision (run_engine fishB oB pB)).positive_suggestions = [] := by
  refine ⟨?_, ?_, ?_⟩
  · unfold finalize_decision
    rw [if_pos h]
    rfl
  · unfold finalize_decision
    split <;> rfl
  · unfold finalize_decision
    split <;> rfl

/-- Claim C1, witness at a concrete calm observation and a concrete
issue-producing observation. -/
theorem no_issue_fallback_witness :
    finalize_decision (run_engine "others" obsCalm Period.morning) =
      { warnings := ["✅ All water parameters are in optimal range!"]
        recommendations := ["Maintain regular monitoring and continue good pond management practices."]
        predictions := []
        positive_feedback := []
        positive_suggestions := [] } ∧
    (finalize_decision (run_engine "others" obsC5 Period.afternoon)).positive_feedback = [] ∧
    (finalize_decision (run_engine "others" obsC5 Period.afternoon)).positive_suggestions = [] :=
  no_issue_fallback "others" obsCalm Period.morning "others" obsC5 Period.afternoon (by decide)

/-- Claim C2: for every observation the final warnings are pairwise
textually distinct, and `add_issue` discards an issue whose warning text
was already rendered by an earlier collected issue (first one kept). -/
theorem warnings_dedup (fish : String) (o : Obs) (p : Period)
    (st : List Issue) (i : Issue) (h : ∃ j ∈ st, j.warning = i.warning) :
    ((finalize_decision (run_engine fish o p)).warnings).Pairwise (fun a b => a ≠ b) ∧
    add_issue st i = st := by
  constructor
  · unfold finalize_decision
    split
    · simp
    · rw [List.pairwise_map]
      have hd : distinctW (run_engine fish o p).relevant_issues :=
        run_rules_distinct (rules_for fish) o p
      exact ((List.perm_insertionSort sevGE _).pairwise_iff
        (fun hab heq => hab heq.symm)).mpr hd
  · exact add_issue_eq_of_mem st i h

/-- Claim C2, witness: concrete duplicate-warning issue discarded and a
concrete evaluation with pairwise-distinct warnings. -/
theorem warnings_dedup_witness :
    ((finalize_decision (run_engine "others" obsC5 Period.morning)).warnings).Pairwise
      (fun a b => a ≠ b) ∧
    add_issue [⟨"w", "r", 1, "c", "q"⟩] ⟨"w", "r2", 2, "c2", "q2"⟩ = [⟨"w", "r", 1, "c", "q"⟩] :=
  warnings_dedup "others" obsC5 Period.morning
    [⟨"w", "r", 1, "c", "q"⟩] ⟨"w", "r2", 2, "c2", "q2"⟩ ⟨⟨"w", "r", 1, "c", "q"⟩, by decide, rfl⟩

/-- Claim C3: on a non-empty issue set the final warnings are the stable
severity-descending sort of the collected issues: warnings come from the
sorted list, adjacent severities are non-increasing (`sevGE` pairwise),
and within any fixed severity the collection order is preserved. -/
theorem warnings_sorted_by_severity (fish : String) (o : Obs) (p : Period) (k : Nat)
    (h : (run_engine fish o p).relevant_issues ≠ []) :
    (finalize_decision (run_engine fish o p)).warnings =
      ((run_engine fish o p).relevant_issues.insertionSort sevGE).map (fun i => i.warning) ∧
    ((run_engine fish o p).relevant_issues.insertionSort sevGE).Pairwise sevGE ∧
    ((run_engine fish o p).relevant_issues.insertionSort sevGE).filter (fun i => i.severity == k) =
      (run_engine fish o p).relevant_issues.filter (fun i => i.severity == k) := by
  refine ⟨?_, ?_, insertionSort_filter_sev k _⟩
  · unfold finalize_decision
    rw [if_neg h]
  · exact List.sorted_insertionSort sevGE _

/-- Claim C3, witness at the two-issue observation. -/
theorem warnings_sorted_by_severity_witness :
    (finalize_decision (run_engine "others" obsC5 Period.morning)).warnings =
      ((run_engine "others" obsC5 Period.morning).relevant_issues.insertionSort sevGE).map
        (fun i => i.warning) ∧
    ((run_engine "others" obsC5 Period.morning).relevant_issues.insertionSort sevGE).Pairwise sevGE ∧
    ((run_engine "others" obsC5 Period.morning).relevant_issues.insertionSort sevGE).filter
        (fun i => i.severity == 4) =
      (run_engine "others" obsC5 Period.morning).relevant_issues.filter
        (fun i => i.severity == 4) :=
  warnings_sorted_by_severity "others" obsC5 Period.morning 4 (by decide)

/-- Claim C4, counterexample: on the scenario observation
(dissolved_oxygen 7, temperature 7, pH 7, ammonia 0, salinity 0) the
warnings list is NOT empty: temperature 7 is below the low-temperature
threshold 20 of the default profile, so that rule fires. -/
theorem scenario_all_normal_counterexample :
    (finalize_decision (run_engine "others" obsC4 Period.morning)).warnings ≠ [] := by
  decide

/-- Claim C4, amended: on that observation exactly one issue fires — the
low-temperature rule (category temperature, severity 3) — for every
period, and the positive fields are empty. -/
theorem scenario_all_normal_amended (p : Period) :
    (run_engine "others" obsC4 p).relevant_issues.map (fun i => i.category) = ["temperature"] ∧
    (run_engine "others" obsC4 p).relevant_issues.map (fun i => i.severity) = [3] ∧
    (finalize_decision (run_engine "others" obsC4 p)).warnings.length = 1 ∧
    (finalize_decision (run_engine "others" obsC4 p)).positive_feedback = [] := by
  cases p <;> exact ⟨by decide, by decide, by decide, by decide⟩

/-- Claim C5, counterexample: the scenario observation (dissolved_oxygen
2, ammonia 2, temperature 35, pH 7, salinity 0) yields TWO issues, not
three, and none of them is in the ammonia category: the ammonia rule
requires strictly more than 2.0. -/
theorem scenario_three_issues_counterexample :
    (run_engine "others" obsC5 Period.morning).relevant_issues.length = 2 ∧
    ((run_engine "others" obsC5 Period.morning).relevant_issues.all
      (fun i => i.category != "ammonia")) = true := by
  decide

/-- Claim C5, amended: that observation yields exactly the oxygen
(severity 4) and temperature (severity 3) issues, sorted by severity
descending, each keeping its own recommendation, for every period. -/
theorem scenario_two_issues_amended (p : Period) :
    ((run_engine "others" obsC5 p).relevant_issues.insertionSort sevGE).map
        (fun i => i.category) = ["oxygen", "temperature"] ∧
    ((run_engine "others" obsC5 p).relevant_issues.insertionSort sevGE).map
        (fun i => i.severity) = [4, 3] ∧
    (finalize_decision (run_engine "others" obsC5 p)).warnings =
      ((run_engine "others" obsC5 p).relevant_issues.insertionSort sevGE).map
        (fun i => i.warning) ∧
    (finalize_decision (run_engine "others" obsC5 p)).recommendations =
      ((run_engine "others" obsC5 p).relevant_issues.insertionSort sevGE).map
        (fun i => i.recommendation) := by
  cases p <;> exact ⟨by decide, by decide, by decide, by decide⟩

/-- Claim C6, counterexample: an unknown profile id does NOT behave like
the default profile: with fish type "goldfish" no rule fires on an
observation on which the default profile produces issues. -/
theorem unknown_profile_counterexample :
    (run_engine "goldfish" obsC5 Period.morning).relevant_issues = [] ∧
    (run_engine "others" obsC5 Period.morning).relevant_issues ≠ [] := by
  decide

/-- Claim C6, amended: an unspecified fish_type defaults to "others"
(the default profile), and an unknown fish type enables NO rule at all
(the run silently returns zero issues, never an error). -/
theorem profile_default_and_unknown (data : List (String × JVal)) (fish : String)
    (o : Obs) (p : Period) (h0 : lookupKey data "fish_type" = none)
    (h1 : fish ≠ "others") (h2 : fish ≠ "catfish") (h3 : fish ≠ "tilapia")
    (h4 : fish ≠ "crayfish") :
    fish_type_of data = JVal.str "others" ∧ (run_engine fish o p).relevant_issues = [] := by
  constructor
  · unfold fish_type_of
    rw [h0]
    rfl
  · unfold run_engine run_rules rules_for
    rw [if_neg h1, if_neg h2, if_neg h3, if_neg h4]
    rfl

/-- Claim C6, witness at an empty body and fish type "goldfish". -/
theorem profile_default_and_unknown_witness :
    fish_type_of [] = JVal.str "others" ∧
    (run_engine "goldfish" obsC4 Period.night).relevant_issues = [] :=
  profile_default_and_unknown [] "goldfish" obsC4 Period.night rfl
    (by decide) (by decide) (by decide) (by decide)

/-- Claim C7: evaluation is a total function of the observation, and a
rule whose referenced parameter is absent never fires: with any
parameter missing, no issue of that parameter category is produced,
whichever other parameters are present. -/
theorem evaluation_skips_missing_params (fish : String) (o : Obs) (p : Period) :
    (o.dissolved_oxygen = none →
      ((run_engine fish o p).relevant_issues.all (fun i => i.category != "oxygen")) = true) ∧
    (o.temperature = none →
      ((run_engine fish o p).relevant_issues.all (fun i => i.category != "temperature")) = true) ∧
    (o.ph_level = none →
      ((run_engine fish o p).relevant_issues.all (fun i => i.category != "ph")) = true) ∧
    (o.salinity = none →
      ((run_engine fish o p).relevant_issues.all (fun i => i.category != "salinity")) = true) ∧
    (o.ammonia = none →
      ((run_engine fish o p).relevant_issues.all (fun i => i.category != "ammonia")) = true) := by
  refine ⟨?_, ?_, ?_, ?_, ?_⟩ <;>
    · intro hn
      rw [List.all_eq_true]
      intro i hi
      rw [bne_iff_ne]
      rcases engine_issue_shape hi with ⟨hc, hs⟩ | ⟨hc, hs⟩ | ⟨hc, hs⟩ | ⟨hc, hs⟩ | ⟨hc, hs⟩ <;>
        first
        | (rw [hn] at hs; cases hs)
        | (rw [hc]; decide)

/-- Claim C7, witness at the all-absent observation. -/
theorem evaluation_skips_missing_params_witness :
    ((run_engine "others" obsNone Period.morning).relevant_issues.all
      (fun i => i.category != "oxygen")) = true ∧
    ((run_engine "others" obsNone Period.morning).relevant_issues.all
      (fun i => i.category != "temperature")) = true ∧
    ((run_engine "others" obsNone Period.morning).relevant_issues.all
      (fun i => i.category != "ph")) = true ∧
    ((run_engine "others" obsNone Period.morning).relevant_issues.all
      (fun i => i.category != "salinity")) = true ∧
    ((run_engine "others" obsNone Period.morning).relevant_issues.all
      (fun i => i.category != "ammonia")) = true :=
  ⟨(evaluation_skips_missing_params "others" obsNone Period.morning).1 rfl,
   (evaluation_skips_missing_params "others" obsNone Period.morning).2.1 rfl,
   (evaluation_skips_missing_params "others" obsNone Period.morning).2.2.1 rfl,
   (evaluation_skips_missing_params "others" obsNone Period.morning).2.2.2.1 rfl,
   (evaluation_skips_missing_params "others" obsNone Period.morning).2.2.2.2 rfl⟩

/-- Claim C8, counterexample: the turbidity band predicates do NOT
partition their domain: at turbidity 60 both tilapia bands (above 30 and
above 50) match, and at 150 both "others" bands (above 50 and above 100)
match. -/
theorem turbidity_bands_overlap_counterexample :
    (high_turbidity_tilapia obsTurb60 Period.morning).isSome = true ∧
    (extreme_turbidity_tilapia obsTurb60 Period.morning).isSome = true ∧
    (high_turbidity_others ⟨some 7, some 25, some 7, some 0, some 0, some 150⟩
      Period.morning).isSome = true ∧
    (extremely_high_turbidity_others ⟨some 7, some 25, some 7, some 0, some 0, some 150⟩
      Period.morning).isSome = true := by
  decide

/-- Claim C8, amended: among the rules actually registered on the
engine, at most one band rule per category fires for a given value: the
high/low temperature pair and the low/high pH pair of every profile
(the only same-scope same-category rule pairs in the class) have
mutually exclusive guards, and the overlapping turbidity bands are never
registered, so no engine run ever yields a turbidity issue. -/
theorem registered_band_rules_exclusive (fish : String) (o : Obs) (p : Period) :
    ((high_temperature_others o p).isSome && (low_temperature_others o p).isSome) = false ∧
    ((high_temperature_catfish o p).isSome && (low_temperature_catfish o p).isSome) = false ∧
    ((high_temperature_tilapia o p).isSome && (low_temperature_tilapia o p).isSome) = false ∧
    ((high_temperature_crayfish o p).isSome && (low_temperature_crayfish o p).isSome) = false ∧
    ((low_ph_others o p).isSome && (high_ph_others o p).isSome) = false ∧
    ((low_ph_catfish o p).isSome && (high_ph_catfish o p).isSome) = false ∧
    ((low_ph_tilapia o p).isSome && (high_ph_tilapia o p).isSome) = false ∧
    ((low_ph_crayfish o p).isSome && (high_ph_crayfish o p).isSome) = false ∧
    ((run_engine fish o p).relevant_issues.all (fun i => i.category != "turbidity")) = true :=
  ⟨temp_bands_mutually_exclusive_others o p,
   temp_bands_mutually_exclusive_catfish o p,
   temp_bands_mutually_exclusive_tilapia o p,
   temp_bands_mutually_exclusive_crayfish o p,
   ph_bands_mutually_exclusive_others o p,
   ph_bands_mutually_exclusive_catfish o p,
   ph_bands_mutually_exclusive_tilapia o p,
   ph_bands_mutually_exclusive_crayfish o p,
   engine_no_turbidity fish o p⟩

/-- Claim C9, counterexample: a body omitting turbidity is rejected with
a 400 missing-key error, because `turbidity` is in `required_keys`. -/
theorem omit_turbidity_rejected_counterexample :
    predict bodyNoTurbidity Period.morning =
      Except.error "Missing key in input data: turbidity" := rfl

/-- Claim C9, amended: `turbidity` is a REQUIRED field: a request body
passes validation exactly when every one of the six required keys —
turbidity included — is present, numeric and non-negative. -/
theorem turbidity_required (data : List (String × JVal)) :
    "turbidity" ∈ required_keys ∧
    (validate_first_error data = none ↔
      ∀ k ∈ required_keys, ∃ v, lookupKey data k = some (JVal.num v) ∧ 0 ≤ v) := by
  constructor
  · decide
  · unfold validate_first_error
    rw [List.findSome?_eq_none_iff]
    constructor
    · intro h k hk
      exact (check_key_none_iff data k).mp (h k hk)
    · intro h k hk
      exact (check_key_none_iff data k).mpr (h k hk)

/-- Claim C9, witness: the complete body passes validation. -/
theorem turbidity_required_witness :
    "turbidity" ∈ required_keys ∧ validate_first_error bodyFull = none :=
  ⟨(turbidity_required bodyFull).1,
   (turbidity_required bodyFull).2.mpr (by
    intro k hk
    simp only [required_keys, List.mem_cons, List.not_mem_nil, or_false] at hk
    rcases hk with rfl | rfl | rfl | rfl | rfl | rfl
    · exact ⟨7, rfl, by decide⟩
    · exact ⟨7, rfl, by decide⟩
    · exact ⟨25, rfl, by decide⟩
    · exact ⟨0, rfl, by decide⟩
    · exact ⟨0, rfl, by decide⟩
    · exact ⟨10, rfl, by decide⟩)⟩

/-- Claim C10: no engine run ever collects a turbidity-category issue,
for any fish type, observation and period: the eight turbidity rule
functions are module-level, not methods of `OxygenPredictor`, so they
are registered in none of the per-fish rule lists. -/
theorem advisory_never_contains_turbidity (fish : String) (o : Obs) (p : Period) :
    ((run_engine fish o p).relevant_issues.all (fun i => i.category != "turbidity")) = true :=
  engine_no_turbidity fish o p
